import Mathlib

/-!
Verification of the gold-ornament quotation core (`streamlit_app.py`):
the pricing engine (`karat_to_purity`, `compute_price`, `PriceBreakdown`)
and the rate-acquisition layer (`fetch_gold_rate`), shallowly embedded
over exact rational arithmetic.
-/

set_option maxHeartbeats 1000000

/-- `karat_to_purity(karat)` from the source: `max(0.0, min(1.0, karat / 24.0))`. -/
def karat_to_purity (karat : Int) : ℚ :=
  max 0 (min 1 ((karat : ℚ) / 24))

/-- The full parameter list of `compute_price`, bundled as a record
(one field per positional argument of the Python function). -/
structure PricingParams where
  weight_g : ℚ
  karat : Int
  base_rate_per_g : ℚ
  making_pct : ℚ
  making_min : ℚ
  stone_cost : ℚ
  hallmarking : ℚ
  shipping : ℚ
  insurance_pct : ℚ
  certification_fee : ℚ
  conversion_fee : ℚ
  discount_pct : ℚ
  advance_paid : ℚ
  gst_pct : ℚ
  final_lock_band : ℚ
deriving Repr

/-- The `PriceBreakdown` value object: an insertion-ordered mapping of
line-item names to amounts (a Python dict preserves insertion order). -/
structure PriceBreakdown where
  parts : List (String × ℚ)
deriving Repr

/-- `PriceBreakdown.subtotal`: `sum(v for k, v in parts.items() if k not in {"GST"})`. -/
def PriceBreakdown.subtotal (b : PriceBreakdown) : ℚ :=
  ((b.parts.filter (fun x => x.1 != "GST")).map Prod.snd).sum

/-- `PriceBreakdown.total`: `sum(parts.values())`. -/
def PriceBreakdown.total (b : PriceBreakdown) : ℚ :=
  (b.parts.map Prod.snd).sum

/-- Value of the line item named `k` in a breakdown (0 when absent). -/
def PriceBreakdown.part (b : PriceBreakdown) (k : String) : ℚ :=
  ((b.parts.find? (fun x => x.1 == k)).map Prod.snd).getD 0

/- The locals of `compute_price`, one definition per assignment,
in source order. -/

/-- `purity = karat_to_purity(karat)` -/
def purity (p : PricingParams) : ℚ := karat_to_purity p.karat

/-- `gold_value = weight_g * base_rate_per_g * purity` -/
def gold_value (p : PricingParams) : ℚ := p.weight_g * p.base_rate_per_g * purity p

/-- `making = max(making_min, gold_value * making_pct / 100)` -/
def making (p : PricingParams) : ℚ := max p.making_min (gold_value p * p.making_pct / 100)

/-- `gross_before = gold_value + making + stone_cost + hallmarking + shipping + certification_fee + conversion_fee` -/
def gross_before (p : PricingParams) : ℚ :=
  gold_value p + making p + p.stone_cost + p.hallmarking + p.shipping
    + p.certification_fee + p.conversion_fee

/-- `insurance = gross_before * (insurance_pct / 100)` -/
def insurance (p : PricingParams) : ℚ := gross_before p * (p.insurance_pct / 100)

/-- `gross = gross_before + insurance` -/
def gross (p : PricingParams) : ℚ := gross_before p + insurance p

/-- `discount = gross * (discount_pct / 100)` -/
def discount (p : PricingParams) : ℚ := gross p * (p.discount_pct / 100)

/-- `net = gross - discount` -/
def net (p : PricingParams) : ℚ := gross p - discount p

/-- `gst = net * (gst_pct / 100)` -/
def gst (p : PricingParams) : ℚ := net p * (p.gst_pct / 100)

/-- `total_before_advance = net + gst + final_lock_band` -/
def total_before_advance (p : PricingParams) : ℚ := net p + gst p + p.final_lock_band

/-- `final_payable = max(0.0, total_before_advance - advance_paid)` -/
def final_payable (p : PricingParams) : ℚ := max 0 (total_before_advance p - p.advance_paid)

/-- `compute_price`: emits the `parts` dict in source insertion order. -/
def compute_price (p : PricingParams) : PriceBreakdown :=
  ⟨[("Gold value", gold_value p),
    ("Making charges", making p),
    ("Stone cost", p.stone_cost),
    ("Hallmarking", p.hallmarking),
    ("Shipping", p.shipping),
    ("Certification", p.certification_fee),
    ("Conversion", p.conversion_fee),
    ("Insurance", insurance p),
    ("Discount", -discount p),
    ("GST", gst p),
    ("Advance paid", -p.advance_paid),
    ("Final lock band", p.final_lock_band),
    ("Final payable", final_payable p)]⟩

/-- Scenario A parameters: weight 10 g, karat 22, rate 6000/g,
making 12 % with minimum 500, everything else 0. -/
def scenarioA : PricingParams :=
  { weight_g := 10, karat := 22, base_rate_per_g := 6000,
    making_pct := 12, making_min := 500, stone_cost := 0,
    hallmarking := 0, shipping := 0, insurance_pct := 0,
    certification_fee := 0, conversion_fee := 0, discount_pct := 0,
    advance_paid := 0, gst_pct := 0, final_lock_band := 0 }

/-- Scenario B parameters: same as Scenario A but GST 3 %. -/
def scenarioB : PricingParams :=
  { scenarioA with gst_pct := 3 }

/- Lookup lemmas: each named line item of `compute_price` is the
corresponding intermediate quantity. -/

lemma part_gold_value (p : PricingParams) :
    (compute_price p).part "Gold value" = gold_value p := rfl

lemma part_making (p : PricingParams) :
    (compute_price p).part "Making charges" = making p := rfl

lemma part_insurance (p : PricingParams) :
    (compute_price p).part "Insurance" = insurance p := rfl

lemma part_discount (p : PricingParams) :
    (compute_price p).part "Discount" = -discount p := rfl

lemma part_gst (p : PricingParams) :
    (compute_price p).part "GST" = gst p := rfl

lemma part_advance (p : PricingParams) :
    (compute_price p).part "Advance paid" = -p.advance_paid := rfl

lemma part_final_payable (p : PricingParams) :
    (compute_price p).part "Final payable" = final_payable p := rfl

/-- C1: Scenario A yields gold value 55000, making 6600, final payable 61600;
Scenario B additionally yields tax 1848 and final payable 63448. -/
theorem C1_scenarios :
    (compute_price scenarioA).part "Gold value" = 55000 ∧
    (compute_price scenarioA).part "Making charges" = 6600 ∧
    (compute_price scenarioA).part "Final payable" = 61600 ∧
    (compute_price scenarioB).part "GST" = 1848 ∧
    (compute_price scenarioB).part "Final payable" = 63448 := by
  simp only [part_gold_value, part_making, part_final_payable, part_gst]
  norm_num [scenarioA, scenarioB, gold_value, making, purity, karat_to_purity,
    insurance, gross_before, gross, discount, net, gst, total_before_advance,
    final_payable, min_def, max_def]

/-- C4: purity is karat/24 clamped to [0,1]: exact on the standard karat
set, 0 for karat ≤ 0 (hence gold value 0), and 1 for karat ≥ 24. -/
theorem C4_purity_clamp (k : Int) :
    (k = 24 ∨ k = 22 ∨ k = 20 ∨ k = 18 ∨ k = 14 → karat_to_purity k = (k : ℚ) / 24) ∧
    (k ≤ 0 → karat_to_purity k = 0 ∧
      ∀ p : PricingParams, p.karat = k → (compute_price p).part "Gold value" = 0) ∧
    (24 ≤ k → karat_to_purity k = 1) := by
  refine ⟨?_, ?_, ?_⟩
  · rintro (rfl | rfl | rfl | rfl | rfl) <;>
      norm_num [karat_to_purity, min_def, max_def]
  · intro hk
    have hkq : (k : ℚ) ≤ 0 := by exact_mod_cast hk
    have hq : (k : ℚ) / 24 ≤ 0 := by linarith
    have hp : karat_to_purity k = 0 := by
      rw [karat_to_purity, min_eq_right (hq.trans (by norm_num))]
      exact max_eq_left hq
    refine ⟨hp, fun p hpk => ?_⟩
    rw [part_gold_value, gold_value, purity, hpk, hp, mul_zero]
  · intro hk
    have hkq : (24 : ℚ) ≤ (k : ℚ) := by exact_mod_cast hk
    have hq : (1 : ℚ) ≤ (k : ℚ) / 24 := by linarith
    rw [karat_to_purity, min_eq_left hq]
    norm_num

/-- Witness for C4 at karat 22, -5 and 30. -/
theorem C4_purity_clamp_witness :
    karat_to_purity 22 = 22 / 24 ∧
    karat_to_purity (-5) = 0 ∧
    (compute_price { scenarioA with karat := -5 }).part "Gold value" = 0 ∧
    karat_to_purity 30 = 1 :=
  ⟨by have := (C4_purity_clamp 22).1 (by norm_num); rw [this]; norm_num,
   ((C4_purity_clamp (-5)).2.1 (by norm_num)).1,
   ((C4_purity_clamp (-5)).2.1 (by norm_num)).2 _ rfl,
   (C4_purity_clamp 30).2.2 (by norm_num)⟩

/-- Scenario C parameters: Scenario B with an advance of 70000 already paid. -/
def scenarioC : PricingParams :=
  { scenarioB with advance_paid := 70000 }

/-- C5: for all non-negative inputs, the final payable is non-negative
(it is floored at zero even when the advance exceeds the total). -/
theorem C5_final_payable_nonneg (p : PricingParams)
    (hw : 0 ≤ p.weight_g) (hk : 0 ≤ p.karat) (hr : 0 ≤ p.base_rate_per_g)
    (hmp : 0 ≤ p.making_pct) (hmm : 0 ≤ p.making_min) (hs : 0 ≤ p.stone_cost)
    (hh : 0 ≤ p.hallmarking) (hsh : 0 ≤ p.shipping) (hi : 0 ≤ p.insurance_pct)
    (hc : 0 ≤ p.certification_fee) (hcv : 0 ≤ p.conversion_fee)
    (hd : 0 ≤ p.discount_pct) (ha : 0 ≤ p.advance_paid) (hg : 0 ≤ p.gst_pct)
    (hl : 0 ≤ p.final_lock_band) :
    0 ≤ (compute_price p).part "Final payable" := by
  rw [part_final_payable, final_payable]
  exact le_max_left 0 _

/-- Witness for C5 at Scenario C, where the advance (70000) exceeds the
total before advance (63448) and the final payable is exactly 0. -/
theorem C5_final_payable_nonneg_witness :
    0 ≤ (compute_price scenarioC).part "Final payable" ∧
    (compute_price scenarioC).part "Final payable" = 0 ∧
    total_before_advance scenarioC = 63448 :=
  ⟨C5_final_payable_nonneg scenarioC
      (by norm_num [scenarioC, scenarioB, scenarioA])
      (by norm_num [scenarioC, scenarioB, scenarioA])
      (by norm_num [scenarioC, scenarioB, scenarioA])
      (by norm_num [scenarioC, scenarioB, scenarioA])
      (by norm_num [scenarioC, scenarioB, scenarioA])
      (by norm_num [scenarioC, scenarioB, scenarioA])
      (by norm_num [scenarioC, scenarioB, scenarioA])
      (by norm_num [scenarioC, scenarioB, scenarioA])
      (by norm_num [scenarioC, scenarioB, scenarioA])
      (by norm_num [scenarioC, scenarioB, scenarioA])
      (by norm_num [scenarioC, scenarioB, scenarioA])
      (by norm_num [scenarioC, scenarioB, scenarioA])
      (by norm_num [scenarioC, scenarioB, scenarioA])
      (by norm_num [scenarioC, scenarioB, scenarioA])
      (by norm_num [scenarioC, scenarioB, scenarioA]),
   by
    rw [part_final_payable]
    norm_num [scenarioC, scenarioB, scenarioA, gold_value, making, purity,
      karat_to_purity, insurance, gross_before, gross, discount, net, gst,
      total_before_advance, final_payable, min_def, max_def],
   by
    norm_num [scenarioC, scenarioB, scenarioA, gold_value, making, purity,
      karat_to_purity, insurance, gross_before, gross, discount, net, gst,
      total_before_advance, min_def, max_def]⟩

/-- C6: the making charge is at least the absolute minimum and at least
the percentage of the gold value (percentage-or-minimum max floor). -/
theorem C6_making_floor (p : PricingParams) :
    p.making_min ≤ (compute_price p).part "Making charges" ∧
    (compute_price p).part "Gold value" * p.making_pct / 100 ≤
      (compute_price p).part "Making charges" := by
  rw [part_making, part_gold_value, making]
  exact ⟨le_max_left _ _, le_max_right _ _⟩

/-- C7: the breakdown has exactly thirteen line items, in the canonical
insertion order, with Discount and Advance paid stored negated. -/
theorem C7_breakdown_order (p : PricingParams) :
    (compute_price p).parts.map Prod.fst =
      ["Gold value", "Making charges", "Stone cost", "Hallmarking", "Shipping",
       "Certification", "Conversion", "Insurance", "Discount", "GST",
       "Advance paid", "Final lock band", "Final payable"] ∧
    (compute_price p).parts.length = 13 ∧
    (compute_price p).part "Discount" = -discount p ∧
    (compute_price p).part "Advance paid" = -p.advance_paid :=
  ⟨rfl, rfl, part_discount p, part_advance p⟩

/-- C8: the total is the sum of all thirteen emitted line items, the
subtotal is the same sum without the GST item, and their difference is
exactly the GST line item. -/
theorem C8_subtotal_total (p : PricingParams) :
    (compute_price p).total =
      gold_value p + making p + p.stone_cost + p.hallmarking + p.shipping
        + p.certification_fee + p.conversion_fee + insurance p + (-discount p)
        + gst p + (-p.advance_paid) + p.final_lock_band + final_payable p ∧
    (compute_price p).subtotal =
      gold_value p + making p + p.stone_cost + p.hallmarking + p.shipping
        + p.certification_fee + p.conversion_fee + insurance p + (-discount p)
        + (-p.advance_paid) + p.final_lock_band + final_payable p ∧
    (compute_price p).total - (compute_price p).subtotal =
      (compute_price p).part "GST" := by
  have ht : (compute_price p).total =
      gold_value p + making p + p.stone_cost + p.hallmarking + p.shipping
        + p.certification_fee + p.conversion_fee + insurance p + (-discount p)
        + gst p + (-p.advance_paid) + p.final_lock_band + final_payable p := by
    simp only [PriceBreakdown.total, compute_price, List.map_cons, List.map_nil,
      List.sum_cons, List.sum_nil]
    ring
  have hs : (compute_price p).subtotal =
      gold_value p + making p + p.stone_cost + p.hallmarking + p.shipping
        + p.certification_fee + p.conversion_fee + insurance p + (-discount p)
        + (-p.advance_paid) + p.final_lock_band + final_payable p := by
    have hf : (compute_price p).parts.filter (fun x => x.1 != "GST") =
        [("Gold value", gold_value p),
         ("Making charges", making p),
         ("Stone cost", p.stone_cost),
         ("Hallmarking", p.hallmarking),
         ("Shipping", p.shipping),
         ("Certification", p.certification_fee),
         ("Conversion", p.conversion_fee),
         ("Insurance", insurance p),
         ("Discount", -discount p),
         ("Advance paid", -p.advance_paid),
         ("Final lock band", p.final_lock_band),
         ("Final payable", final_payable p)] := rfl
    simp only [PriceBreakdown.subtotal, hf, List.map_cons, List.map_nil,
      List.sum_cons, List.sum_nil]
    ring
  exact ⟨ht, hs, by rw [ht, hs, part_gst]; ring⟩

/-- C9: since "Final payable" is itself a summed line item, the total
accessor equals (net + tax + lock band) - advance + final payable; with no
advance and a positive amount due, the Total row is twice the final
payable, so it does not represent the amount due. -/
theorem C9_total_double_counts (p : PricingParams) :
    (compute_price p).total =
      total_before_advance p - p.advance_paid + final_payable p ∧
    (p.advance_paid = 0 → 0 < total_before_advance p →
      (compute_price p).total = 2 * final_payable p) := by
  have ht : (compute_price p).total =
      total_before_advance p - p.advance_paid + final_payable p := by
    simp only [PriceBreakdown.total, compute_price, List.map_cons, List.map_nil,
      List.sum_cons, List.sum_nil, total_before_advance, net, gross, gross_before,
      insurance, gst, discount]
    ring
  refine ⟨ht, fun ha hpos => ?_⟩
  have hfp : final_payable p = total_before_advance p := by
    rw [final_payable, ha, sub_zero]
    exact max_eq_right hpos.le
  rw [ht, ha, hfp]
  ring

/-- Witness for C9 at Scenario A: no advance, positive amount due, and the
Total row equals twice the final payable (2 x 61600 = 123200). -/
theorem C9_total_double_counts_witness :
    (compute_price scenarioA).total = 2 * final_payable scenarioA :=
  (C9_total_double_counts scenarioA).2 rfl
    (by norm_num [scenarioA, gold_value, making, purity, karat_to_purity,
      insurance, gross_before, gross, discount, net, gst, total_before_advance,
      min_def, max_def])

/-! ## Rate-acquisition layer (`fetch_gold_rate`)

The Python function runs at most one upstream HTTP attempt (the `paid`
branch when `config["source"] == "paid"` and `requests` is importable,
otherwise the `free` branch when `requests` is importable, otherwise
nothing), wrapped in a `try`/`except` that stores `str(e)` under
`meta["error"]`. The single attempt's observable outcome is embedded as
`HttpOutcome`: either an exception with a message, or a response with an
HTTP ok-flag and the relevant numeric JSON field (`price` for paid,
`rates.XAU` for free), `none` when the field is absent. Python truthiness
(`if price_per_oz:` / `if xau_rate:`) skips both the absent field and a
zero value. -/

/-- The troy-ounce-to-gram constant `31.1034768` from the source. -/
def OZ_TO_GRAM : ℚ := 311034768 / 10000000

/-- The fields of the `config` dict read by `fetch_gold_rate`
(`config.get("source")` may be absent, hence `Option`). -/
structure FetchConfig where
  source : Option String
  api_key : String
  base_currency : String

/-- Observable outcome of the single upstream HTTP attempt: an exception
(network error, timeout, JSON parse failure) with its message, or a
response with its ok-status and the relevant numeric field (`none` when
the field is missing from the body). -/
inductive HttpOutcome where
  | exc (msg : String)
  | resp (ok : Bool) (field : Option ℚ)

/-- The dict returned by `fetch_gold_rate`: `per_gram` plus the `meta`
entries (`source`, `timestamp` always; `provider` and `error` optional). -/
structure RateResult where
  per_gram : Option ℚ
  meta_source : Option String
  meta_timestamp : String
  meta_provider : Option String
  meta_error : Option String

/-- `fetch_gold_rate(config)`, embedded over an explicit availability flag
for the `requests` dependency, the outcome of the (at most one) upstream
attempt, and the current timestamp string. Mirrors the source control
flow: `per_gram` starts as `None`, the paid branch runs when
`config.get("source") == "paid" and requests`, the free branch runs
`elif requests`, and any exception sets `meta["error"] = str(e)`. -/
def fetch_gold_rate (requestsAvailable : Bool) (config : FetchConfig)
    (oc : HttpOutcome) (now : String) : RateResult :=
  let base : RateResult :=
    { per_gram := none, meta_source := config.source, meta_timestamp := now,
      meta_provider := none, meta_error := none }
  if config.source = some "paid" ∧ requestsAvailable = true then
    match oc with
    | .exc m => { base with meta_error := some m }
    | .resp ok field =>
      if ok then
        match field with
        | some price_per_oz =>
          if price_per_oz ≠ 0 then
            { base with per_gram := some (price_per_oz / OZ_TO_GRAM),
                        meta_provider := some "goldapi.io" }
          else base
        | none => base
      else base
  else if requestsAvailable then
    match oc with
    | .exc m => { base with meta_error := some m }
    | .resp ok field =>
      if ok then
        match field with
        | some xau_rate =>
          if xau_rate ≠ 0 then
            { base with per_gram := some (1 / xau_rate / OZ_TO_GRAM),
                        meta_provider := some "metals-api" }
          else base
        | none => base
      else base
  else base

/-- A successful upstream call: an ok response whose numeric field is
present and truthy (non-zero). -/
def upstream_success : HttpOutcome → Bool
  | .resp true (some v) => v != 0
  | _ => false

/-- Whether the attempt raised an exception. -/
def raised : HttpOutcome → Bool
  | .exc _ => true
  | _ => false

/-- The `meta["error"]` entry the source produces: the exception message
when an attempt was made and raised, absent otherwise. -/
def expected_error (requestsAvailable : Bool) : HttpOutcome → Option String
  | .exc m => if requestsAvailable then some m else none
  | .resp _ _ => none

lemma fetch_cases (rq : Bool) (cfg : FetchConfig) (oc : HttpOutcome) (now : String) :
    (fetch_gold_rate rq cfg oc now).per_gram.isSome = (rq && upstream_success oc) ∧
    (fetch_gold_rate rq cfg oc now).meta_error = expected_error rq oc := by
  rcases oc with m | ⟨(_ | _), (_ | v)⟩ <;> cases rq <;>
    by_cases hp : cfg.source = some "paid" <;>
      first
        | (by_cases hv : v = 0 <;>
            simp [fetch_gold_rate, upstream_success, expected_error, hp, hv])
        | simp [fetch_gold_rate, upstream_success, expected_error, hp]

/-- C3: `per_gram` is null iff no successful upstream call occurred, and
`meta.error` is present iff an exception was raised during an attempt; in
particular an ok response lacking the numeric field leaves `per_gram`
null with no `meta.error`. -/
theorem C3_rate_result_invariant (rq : Bool) (cfg : FetchConfig)
    (oc : HttpOutcome) (now : String) :
    ((fetch_gold_rate rq cfg oc now).per_gram = none ↔
      ¬(rq = true ∧ upstream_success oc = true)) ∧
    ((fetch_gold_rate rq cfg oc now).meta_error.isSome ↔
      (rq = true ∧ raised oc = true)) ∧
    (rq = true → oc = HttpOutcome.resp true none →
      (fetch_gold_rate rq cfg oc now).per_gram = none ∧
      (fetch_gold_rate rq cfg oc now).meta_error = none) := by
  obtain ⟨h1, h2⟩ := fetch_cases rq cfg oc now
  refine ⟨?_, ?_, ?_⟩
  · rw [← Option.not_isSome_iff_eq_none, h1, Bool.and_eq_true]
  · rw [h2]
    rcases oc with m | ⟨ok, field⟩ <;> cases rq <;>
      simp [expected_error, raised]
  · rintro rfl rfl
    refine ⟨?_, ?_⟩
    · rw [← Option.not_isSome_iff_eq_none, h1]
      simp [upstream_success]
    · rw [h2]
      simp [expected_error]

/-- Witness for C3: the free upstream answering ok without a `rates.XAU`
field yields `per_gram = none` and no `meta.error`. -/
theorem C3_rate_result_invariant_witness :
    (fetch_gold_rate true ⟨some "free", "", "INR"⟩
        (HttpOutcome.resp true none) "2024-01-01T00:00:00").per_gram = none ∧
    (fetch_gold_rate true ⟨some "free", "", "INR"⟩
        (HttpOutcome.resp true none) "2024-01-01T00:00:00").meta_error = none :=
  (C3_rate_result_invariant true ⟨some "free", "", "INR"⟩
      (HttpOutcome.resp true none) "2024-01-01T00:00:00").2.2 rfl rfl

/-- C2 counterexample: with the `requests` dependency unavailable the call
returns `per_gram = none` but `meta.error` is NOT populated (the claim
demands a populated `meta.error` for this failure). -/
theorem C2_counterexample :
    (fetch_gold_rate false ⟨some "free", "", "INR"⟩
        (HttpOutcome.resp true none) "2024-01-01T00:00:00").per_gram = none ∧
    (fetch_gold_rate false ⟨some "free", "", "INR"⟩
        (HttpOutcome.resp true none) "2024-01-01T00:00:00").meta_error = none := by
  constructor <;> rfl

/-- C2 amended: `fetch_gold_rate` never raises (it is embedded as a total
function) and every upstream failure leaves `per_gram = none`; but
`meta.error` is populated (with the exception text) only when an exception
was raised during an attempted call — a non-success HTTP status, a
missing or zero numeric field, and an unavailable `requests` dependency
all leave `meta.error` absent. -/
theorem C2_failure_handling (rq : Bool) (cfg : FetchConfig)
    (oc : HttpOutcome) (now : String) :
    (¬(rq = true ∧ upstream_success oc = true) →
      (fetch_gold_rate rq cfg oc now).per_gram = none) ∧
    (∀ m, rq = true → oc = HttpOutcome.exc m →
      (fetch_gold_rate rq cfg oc now).per_gram = none ∧
      (fetch_gold_rate rq cfg oc now).meta_error = some m) ∧
    (rq = false → (fetch_gold_rate rq cfg oc now).meta_error = none) ∧
    (∀ ok field, oc = HttpOutcome.resp ok field →
      (fetch_gold_rate rq cfg oc now).meta_error = none) := by
  obtain ⟨h1, h2⟩ := fetch_cases rq cfg oc now
  refine ⟨?_, ?_, ?_, ?_⟩
  · intro h
    rw [← Option.not_isSome_iff_eq_none, h1, Bool.and_eq_true]
    exact h
  · rintro m rfl rfl
    refine ⟨?_, ?_⟩
    · rw [← Option.not_isSome_iff_eq_none, h1]
      simp [upstream_success]
    · rw [h2]
      simp [expected_error]
  · rintro rfl
    rw [h2]
    rcases oc with m | ⟨ok, field⟩ <;> simp [expected_error]
  · rintro ok field rfl
    rw [h2]
    rfl

/-- Witness for C2 amended: a timed-out paid call reports the exception
message; a non-ok free response leaves no error. -/
theorem C2_failure_handling_witness :
    (fetch_gold_rate true ⟨some "paid", "k", "INR"⟩
        (HttpOutcome.exc "timeout") "2024-01-01T00:00:00").per_gram = none ∧
    (fetch_gold_rate true ⟨some "paid", "k", "INR"⟩
        (HttpOutcome.exc "timeout") "2024-01-01T00:00:00").meta_error = some "timeout" ∧
    (fetch_gold_rate true ⟨some "free", "", "INR"⟩
        (HttpOutcome.resp false none) "2024-01-01T00:00:00").meta_error = none :=
  ⟨((C2_failure_handling true ⟨some "paid", "k", "INR"⟩
        (HttpOutcome.exc "timeout") "2024-01-01T00:00:00").2.1 "timeout" rfl rfl).1,
   ((C2_failure_handling true ⟨some "paid", "k", "INR"⟩
        (HttpOutcome.exc "timeout") "2024-01-01T00:00:00").2.1 "timeout" rfl rfl).2,
   (C2_failure_handling true ⟨some "free", "", "INR"⟩
        (HttpOutcome.resp false none) "2024-01-01T00:00:00").2.2.2 false none rfl⟩

/-- C10: a truthiness guard protects both divisions — an ok response whose
numeric field (`rates.XAU` or `price`) is zero or absent never reaches
the division and yields `per_gram = none` with no error. -/
theorem C10_zero_rate_guard (cfg : FetchConfig) (now : String) (field : Option ℚ)
    (h : field = some 0 ∨ field = none) :
    (fetch_gold_rate true cfg (HttpOutcome.resp true field) now).per_gram = none ∧
    (fetch_gold_rate true cfg (HttpOutcome.resp true field) now).meta_error = none := by
  obtain ⟨h1, h2⟩ := fetch_cases true cfg (HttpOutcome.resp true field) now
  refine ⟨?_, ?_⟩
  · rw [← Option.not_isSome_iff_eq_none, h1]
    rcases h with rfl | rfl <;> simp [upstream_success]
  · rw [h2]
    rfl

/-- Witness for C10 with the paid source and a `price` of zero. -/
theorem C10_zero_rate_guard_witness :
    (fetch_gold_rate true ⟨some "paid", "k", "INR"⟩
        (HttpOutcome.resp true (some 0)) "2024-01-01T00:00:00").per_gram = none ∧
    (fetch_gold_rate true ⟨some "paid", "k", "INR"⟩
        (HttpOutcome.resp true (some 0)) "2024-01-01T00:00:00").meta_error = none :=
  C10_zero_rate_guard ⟨some "paid", "k", "INR"⟩ "2024-01-01T00:00:00"
    (some 0) (Or.inl rfl)
